import Mathlib

/-!
Verification of the run-metrics and output-artifact recording subsystem of
`workflow_orchestrator.py` (class `WorkflowOrchestrator`).

Shallow embedding notes:
- Python `float` durations, averages, rates and costs are modelled as `ℚ`
  (exact arithmetic); the spec's equalities are stated exactly.
- The pipeline driver (`crew.kickoff` together with `create_tasks`/`create_crew`)
  is opaque to this subsystem; one execution's observable outcome is modelled by
  `DriverOutcome`: either a result string or a raised exception carrying a
  message and a formatted traceback.  Wall-clock reads (`datetime.now()`) are
  modelled by passing the start timestamp and the measured duration in.
- Python's `str.isalnum`/`str.lower` are modelled on their ASCII fragment
  (`Char.isAlpha`, `Char.isDigit`, `Char.toLower`); every concrete topic in the
  spec's testable properties is ASCII.
- Filesystem writes are modelled by returning the exact strings the code writes
  (paths and file contents); logging is ignored.
-/

/-- The `workflow_metrics` dictionary initialised in `WorkflowOrchestrator.__init__`. -/
structure WorkflowMetrics where
  total_runs : Nat
  successful_runs : Nat
  failed_runs : Nat
  total_cost : ℚ
  avg_duration : ℚ
  deriving Repr, DecidableEq

/-- Initial value of `workflow_metrics` set in `__init__`. -/
def initMetrics : WorkflowMetrics :=
  { total_runs := 0, successful_runs := 0, failed_runs := 0,
    total_cost := 0, avg_duration := 0 }

/-- The dictionary returned by `get_performance_metrics` (the `last_updated`
wall-clock field is omitted: it is a fresh `datetime.now()` read, not state). -/
structure MetricsSnapshot where
  total_runs : Nat
  successful_runs : Nat
  failed_runs : Nat
  success_rate : ℚ
  average_duration_seconds : ℚ
  estimated_cost_per_run : ℚ
  deriving Repr, DecidableEq

/-- `WorkflowOrchestrator._estimate_cost`: `(15000 / 1000) * 0.002`. -/
def estimate_cost : ℚ := (15000 / 1000) * (2 / 1000)

/-- `WorkflowOrchestrator.get_performance_metrics`: derives the snapshot from the
current counters.  The method only reads `self.workflow_metrics`. -/
def get_performance_metrics (m : WorkflowMetrics) : MetricsSnapshot :=
  { total_runs := m.total_runs,
    successful_runs := m.successful_runs,
    failed_runs := m.failed_runs,
    success_rate :=
      if m.total_runs > 0 then
        (m.successful_runs : ℚ) / (m.total_runs : ℚ) * 100
      else 0,
    average_duration_seconds := m.avg_duration,
    estimated_cost_per_run := estimate_cost }

/-- `get_performance_metrics` viewed as a state transformer on the orchestrator's
metrics state, making explicit that the method body contains no write to
`self.workflow_metrics`. -/
def get_performance_metricsM (m : WorkflowMetrics) : MetricsSnapshot × WorkflowMetrics :=
  (get_performance_metrics m, m)

/-- A wall-clock timestamp at second granularity (the only precision the code's
`strftime("%Y%m%d_%H%M%S")` uses). -/
structure Timestamp where
  year : Nat
  month : Nat
  day : Nat
  hour : Nat
  minute : Nat
  second : Nat
  deriving Repr, DecidableEq

/-- Two-digit zero-padded decimal rendering, as produced by `strftime` fields
`%m %d %H %M %S`. -/
def pad2 (n : Nat) : String :=
  if n < 10 then "0" ++ toString n else toString n

/-- Four-digit zero-padded decimal rendering, as produced by `strftime` field `%Y`. -/
def pad4 (n : Nat) : String :=
  if n < 10 then "000" ++ toString n
  else if n < 100 then "00" ++ toString n
  else if n < 1000 then "0" ++ toString n
  else toString n

/-- `timestamp.strftime("%Y%m%d_%H%M%S")`. -/
def strftime_compact (t : Timestamp) : String :=
  pad4 t.year ++ pad2 t.month ++ pad2 t.day ++ "_" ++
    pad2 t.hour ++ pad2 t.minute ++ pad2 t.second

/-- Python `c.isalnum()` on its ASCII fragment. -/
def pyIsAlnum (c : Char) : Bool := c.isAlpha || c.isDigit

/-- The filter in `safe_topic`: `c.isalnum() or c in (' ', '-', '_')`. -/
def keepChar (c : Char) : Bool := pyIsAlnum c || c = ' ' || c = '-' || c = '_'

/-- Python `str.rstrip()`: drop trailing whitespace. -/
def rstripWS (l : List Char) : List Char :=
  (l.reverse.dropWhile Char.isWhitespace).reverse

/-- The slug computation appearing verbatim in both `_get_output_files` and
`save_output_files`:
`safe_topic = "".join(c for c in topic if c.isalnum() or c in (' ', '-', '_')).rstrip()`
then `safe_topic.replace(' ', '_').lower()`. -/
def safe_topic (topic : String) : String :=
  String.mk
    (((rstripWS (topic.data.filter keepChar)).map
        (fun c => if c = ' ' then '_' else c)).map Char.toLower)

/-- `WorkflowOrchestrator._get_output_files`: the four paths listed for a run,
built only from the topic and the run's start timestamp. -/
def get_output_files (topic : String) (timestamp : Timestamp) : List String :=
  [ "outputs/blog_posts/" ++ safe_topic topic ++ "_" ++ strftime_compact timestamp ++ ".md",
    "outputs/blog_posts/" ++ safe_topic topic ++ "_" ++ strftime_compact timestamp ++ ".html",
    "outputs/blog_posts/" ++ safe_topic topic ++ "_" ++ strftime_compact timestamp ++ ".txt",
    "outputs/blog_posts/" ++ safe_topic topic ++ "_" ++ strftime_compact timestamp ++ "_metadata.json" ]

/-- Observable outcome of the body of the `try` block in `run_workflow`
(dominated by the opaque driver call `crew.kickoff`): either the result value,
or a raised exception with its `str(e)` message and `traceback.format_exc()`. -/
inductive DriverOutcome where
  | ok (result : String)
  | raised (msg : String) (trace : String)
  deriving Repr, DecidableEq

/-- Whether an outcome is a success. -/
def DriverOutcome.isOk : DriverOutcome → Bool
  | .ok _ => true
  | .raised _ _ => false

/-- The external inputs of one `run_workflow` call: its arguments, the wall-clock
start time, the driver's outcome and the measured duration in seconds. -/
structure RunInput where
  topic : String
  word_count : Nat
  start_time : Timestamp
  outcome : DriverOutcome
  duration : ℚ

/-- The dictionary returned by `run_workflow`: the success dictionary populates
`final_output`, `output_files`, `agents_used`, `tasks_completed`, `metrics` and
`duration_seconds`; the failure dictionary populates `error` and `traceback`.
Keys absent from one of the two dictionaries are `Option` fields. -/
structure RunRecord where
  topic : String
  word_count : Nat
  duration : ℚ
  duration_seconds : Option ℚ
  final_output : Option String
  agents_used : Option Nat
  tasks_completed : Option Nat
  success : Bool
  output_files : Option (List String)
  metrics : Option MetricsSnapshot
  error : Option String
  traceback : Option String
  deriving Repr, DecidableEq

/-- `WorkflowOrchestrator.run_workflow`.  `total_runs` is incremented before the
`try` block; on success `successful_runs` is incremented and the running average
updated as `(avg * (successful_runs - 1) + duration) / successful_runs` (with
`successful_runs` already incremented); on an exception `failed_runs` is
incremented and the error dictionary returned.  The exception is caught at this
boundary, so the function is total: it always returns a record. -/
def run_workflow (m : WorkflowMetrics) (inp : RunInput) : RunRecord × WorkflowMetrics :=
  let m1 : WorkflowMetrics := { m with total_runs := m.total_runs + 1 }
  match inp.outcome with
  | .ok result =>
      let s1 : Nat := m1.successful_runs + 1
      let m2 : WorkflowMetrics :=
        { m1 with
          successful_runs := s1,
          avg_duration := (m1.avg_duration * ((s1 : ℚ) - 1) + inp.duration) / (s1 : ℚ) }
      ({ topic := inp.topic,
         word_count := inp.word_count,
         duration := inp.duration,
         duration_seconds := some inp.duration,
         final_output := some result,
         agents_used := some 4,
         tasks_completed := some 4,
         success := true,
         output_files := some (get_output_files inp.topic inp.start_time),
         metrics := some (get_performance_metrics m2),
         error := none,
         traceback := none }, m2)
  | .raised msg trace =>
      let m2 : WorkflowMetrics := { m1 with failed_runs := m1.failed_runs + 1 }
      ({ topic := inp.topic,
         word_count := inp.word_count,
         duration := inp.duration,
         duration_seconds := none,
         final_output := none,
         agents_used := none,
         tasks_completed := none,
         success := false,
         output_files := none,
         metrics := none,
         error := some msg,
         traceback := some trace }, m2)

/-- A sequence of `run_workflow` calls on one orchestrator instance, threading
the metrics state. -/
def runList (m : WorkflowMetrics) : List RunInput → WorkflowMetrics
  | [] => m
  | r :: rs => runList (run_workflow m r).2 rs

/-- Number of successful runs in a sequence (spec side: the `n` of `d1..dn`). -/
def countSucc : List RunInput → Nat
  | [] => 0
  | r :: rs => (if r.outcome.isOk then 1 else 0) + countSucc rs

/-- Number of failed runs in a sequence. -/
def countFail : List RunInput → Nat
  | [] => 0
  | r :: rs => (if r.outcome.isOk then 0 else 1) + countFail rs

/-- Sum of the durations of the successful runs in a sequence (spec side:
`d1 + ... + dn`). -/
def sumSuccDur : List RunInput → ℚ
  | [] => 0
  | r :: rs => (if r.outcome.isOk then r.duration else 0) + sumSuccDur rs

/-- One item of a `batch_process` call: a topic with its run's external data. -/
structure BatchItem where
  topic : String
  start_time : Timestamp
  outcome : DriverOutcome
  duration : ℚ

/-- `WorkflowOrchestrator.batch_process`: iterates `run_workflow` over the topics
in caller-supplied order, appending each returned record.  (`run_workflow`
catches all pipeline exceptions itself, so the per-item `except` arm that would
build a minimal failure entry is unreachable and the loop is a plain map with
state.) -/
def batch_process (m : WorkflowMetrics) (items : List BatchItem) (word_count : Nat) :
    List RunRecord × WorkflowMetrics :=
  match items with
  | [] => ([], m)
  | it :: rest =>
      let step := run_workflow m ⟨it.topic, word_count, it.start_time, it.outcome, it.duration⟩
      let tail := batch_process step.2 rest word_count
      (step.1 :: tail.1, tail.2)

/-- Python `content.split()` (no separator): split on runs of whitespace,
discarding empty tokens.  The accumulator holds the current token reversed. -/
def pySplitAux : List Char → List Char → List String
  | [], [] => []
  | [], acc => [String.mk acc.reverse]
  | c :: cs, acc =>
    if c.isWhitespace then
      match acc with
      | [] => pySplitAux cs []
      | _ => String.mk acc.reverse :: pySplitAux cs []
    else pySplitAux cs (c :: acc)

/-- Python `content.split()` on a string. -/
def pySplit (s : String) : List String := pySplitAux s.data []

/-- Spec side, from "word count = whitespace-delimited token count of content":
the number of maximal runs of non-whitespace characters, counted at the position
where each run starts.  The flag records whether the previous character was
inside a run. -/
def tokenCountAux : List Char → Bool → Nat
  | [], _ => 0
  | c :: cs, inTok =>
    if c.isWhitespace then tokenCountAux cs false
    else (if inTok then 0 else 1) + tokenCountAux cs true

/-- Whitespace-delimited token count of a string (spec side). -/
def whitespaceTokenCount (s : String) : Nat := tokenCountAux s.data false

/-- Python `content.split(sep)` for the one-character separator newline:
chunks between newlines, keeping empty chunks. -/
def splitNL : List Char → List (List Char)
  | [] => [[]]
  | c :: cs =>
    if c = '\n' then [] :: splitNL cs
    else
      match splitNL cs with
      | h :: t => (c :: h) :: t
      | [] => [[c]]

/-- Join a list of chunks with a separator, as Python `sep.join(chunks)`. -/
def joinSep (sep : List Char) : List (List Char) → List Char
  | [] => []
  | [a] => a
  | a :: b :: rest => a ++ sep ++ joinSep sep (b :: rest)

/-- The characters of the line-break tag inserted by the code. -/
def brTag : List Char := ['<', 'b', 'r', '>']

/-- Source side: Python `content.replace('\n', '<br>')`, via the standard
identity `s.replace(old, new) == new.join(s.split(old))` for a non-empty
separator. -/
def pyReplaceNewlineBr (s : String) : String :=
  String.mk (joinSep brTag (splitNL s.data))

/-- Spec side, from "every newline in the content replaced by a line-break tag
(no other escaping)": a character-by-character map that expands newline to the
tag and leaves every other character unchanged. -/
def nlToBrL : List Char → List Char
  | [] => []
  | c :: cs => (if c = '\n' then brTag else [c]) ++ nlToBrL cs

/-- Spec side on strings. -/
def specNewlineToBr (s : String) : String := String.mk (nlToBrL s.data)

/-- The fixed part of the HTML template before the topic (title slot). -/
def htmlHead1 : String :=
  "<!DOCTYPE html>\n<html>\n<head>\n    <title>"

/-- The fixed part of the HTML template between the topic and the content slot. -/
def htmlHead2 : String :=
  "</title>\n    <meta charset=\"UTF-8\">\n    <meta name=\"viewport\" content=\"width=device-width, initial-scale=1.0\">\n    <style>\n        body \x7b font-family: Arial, sans-serif; line-height: 1.6; margin: 40px; \x7d\n        h1, h2, h3 \x7b color: #333; \x7d\n        p \x7b margin-bottom: 16px; \x7d\n        pre \x7b background-color: #f4f4f4; padding: 10px; border-radius: 5px; \x7d\n    </style>\n</head>\n<body>\n    <div id=\"content\">\n        "

/-- The fixed part of the HTML template after the content slot. -/
def htmlTail : String :=
  "\n    </div>\n</body>\n</html>"

/-- The `html_content` f-string built inside `save_output_files`. -/
def htmlDocument (topic content : String) : String :=
  htmlHead1 ++ topic ++ htmlHead2 ++ pyReplaceNewlineBr content ++ htmlTail

/-- The metadata dictionary serialised to `{stem}_metadata.json` by
`save_output_files` (the `files_created` mapping is carried as the three paths,
and `created_by` is the constant string in the source). -/
structure Metadata where
  topic : String
  timestamp : Timestamp
  word_count : Nat
  character_count : Nat
  files_markdown : String
  files_text : String
  files_html : String
  created_by : String
  deriving Repr, DecidableEq

/-- The artifacts produced by one `save_output_files` call: for each format the
path written and the exact content written there. -/
structure ArtifactSet where
  markdown_path : String
  markdown_content : String
  text_path : String
  text_content : String
  html_path : String
  html_content : String
  metadata_path : String
  metadata : Metadata
  deriving Repr, DecidableEq

/-- `WorkflowOrchestrator.save_output_files`: writes the content verbatim to the
`.md` and `.txt` files, the HTML template with `content.replace('\n', '<br>')`
to the `.html` file, and the metadata dictionary (with
`word_count = len(content.split())` and `character_count = len(content)`) to the
`_metadata.json` file. -/
def save_output_files (topic content : String) (timestamp : Timestamp) : ArtifactSet :=
  let st := safe_topic topic
  let ts := strftime_compact timestamp
  let md := "outputs/blog_posts/" ++ st ++ "_" ++ ts ++ ".md"
  let txt := "outputs/blog_posts/" ++ st ++ "_" ++ ts ++ ".txt"
  let html := "outputs/blog_posts/" ++ st ++ "_" ++ ts ++ ".html"
  let json := "outputs/blog_posts/" ++ st ++ "_" ++ ts ++ "_metadata.json"
  { markdown_path := md,
    markdown_content := content,
    text_path := txt,
    text_content := content,
    html_path := html,
    html_content := htmlDocument topic content,
    metadata_path := json,
    metadata :=
      { topic := topic,
        timestamp := timestamp,
        word_count := (pySplit content).length,
        character_count := content.length,
        files_markdown := md,
        files_text := txt,
        files_html := html,
        created_by := "WorkflowOrchestrator" } }

/-- In every sequence of runs, successes and failures partition the runs. -/
theorem countSucc_add_countFail (rs : List RunInput) :
    countSucc rs + countFail rs = rs.length := by
  induction rs with
  | nil => rfl
  | cons r rest ih =>
    simp only [countSucc, countFail, List.length_cons]
    cases h : r.outcome.isOk <;> simp <;> omega

/-- Effect of a sequence of `run_workflow` calls on the three counters. -/
theorem runList_counters (rs : List RunInput) :
    ∀ m : WorkflowMetrics,
      (runList m rs).total_runs = m.total_runs + rs.length ∧
      (runList m rs).successful_runs = m.successful_runs + countSucc rs ∧
      (runList m rs).failed_runs = m.failed_runs + countFail rs := by
  induction rs with
  | nil => intro m; simp [runList, countSucc, countFail]
  | cons r rest ih =>
    intro m
    obtain ⟨t, wc, ts, oc, d⟩ := r
    cases oc with
    | ok res =>
      have h := ih (run_workflow m ⟨t, wc, ts, .ok res, d⟩).2
      simp only [runList]
      simp [run_workflow, countSucc, countFail, DriverOutcome.isOk, List.length_cons] at h ⊢
      omega
    | raised msg tr =>
      have h := ih (run_workflow m ⟨t, wc, ts, .raised msg tr, d⟩).2
      simp only [runList]
      simp [run_workflow, countSucc, countFail, DriverOutcome.isOk, List.length_cons] at h ⊢
      omega

/-- The state after a successful `run_workflow` call, in closed form. -/
theorem run_workflow_state_ok (m : WorkflowMetrics) (t : String) (wc : Nat)
    (ts : Timestamp) (res : String) (d : ℚ) :
    (run_workflow m ⟨t, wc, ts, .ok res, d⟩).2 =
      { m with
        total_runs := m.total_runs + 1,
        successful_runs := m.successful_runs + 1,
        avg_duration :=
          (m.avg_duration * (m.successful_runs : ℚ) + d) / ((m.successful_runs : ℚ) + 1) } := by
  simp only [run_workflow]
  congr 1
  push_cast
  ring_nf

/-- The state after a failed `run_workflow` call, in closed form. -/
theorem run_workflow_state_raised (m : WorkflowMetrics) (t : String) (wc : Nat)
    (ts : Timestamp) (msg tr : String) (d : ℚ) :
    (run_workflow m ⟨t, wc, ts, .raised msg tr, d⟩).2 =
      { m with total_runs := m.total_runs + 1, failed_runs := m.failed_runs + 1 } := rfl

/-- Effect of a sequence of `run_workflow` calls on the running average: as long
as the starting state has a zero average whenever it has no recorded successes,
the scaled average accumulates exactly the successful durations, and it stays
zero while no success has been recorded. -/
theorem runList_avg (rs : List RunInput) :
    ∀ m : WorkflowMetrics, (m.successful_runs = 0 → m.avg_duration = 0) →
      (runList m rs).avg_duration * ((m.successful_runs + countSucc rs : Nat) : ℚ)
          = m.avg_duration * (m.successful_runs : ℚ) + sumSuccDur rs ∧
      (m.successful_runs + countSucc rs = 0 → (runList m rs).avg_duration = 0) := by
  induction rs with
  | nil =>
    intro m hm
    refine ⟨by simp [runList, countSucc, sumSuccDur], ?_⟩
    intro h0
    simpa [runList] using hm (by omega)
  | cons r rest ih =>
    intro m hm
    obtain ⟨t, wc, ts, oc, d⟩ := r
    cases oc with
    | raised msg tr =>
      have h := ih { m with total_runs := m.total_runs + 1, failed_runs := m.failed_runs + 1 }
        (by simpa using hm)
      simp only [runList, run_workflow_state_raised]
      simp only [countSucc, sumSuccDur, DriverOutcome.isOk] at h ⊢
      simpa using h
    | ok res =>
      have hne : ((m.successful_runs : ℚ) + 1) ≠ 0 := by positivity
      have h := ih
        { m with
          total_runs := m.total_runs + 1,
          successful_runs := m.successful_runs + 1,
          avg_duration :=
            (m.avg_duration * (m.successful_runs : ℚ) + d) / ((m.successful_runs : ℚ) + 1) }
        (by intro h0; simp at h0)
      simp only [runList, run_workflow_state_ok]
      simp only [countSucc, sumSuccDur, DriverOutcome.isOk] at h ⊢
      obtain ⟨h1, -⟩ := h
      refine ⟨?_, ?_⟩
      · have hcancel :
            (m.avg_duration * (m.successful_runs : ℚ) + d) / ((m.successful_runs : ℚ) + 1) *
                ((m.successful_runs : ℚ) + 1)
              = m.avg_duration * (m.successful_runs : ℚ) + d :=
          div_mul_cancel₀ _ hne
        push_cast at h1 ⊢
        rw [show ((m.successful_runs : ℚ) + 1 + (countSucc rest : ℚ))
              = (m.successful_runs : ℚ) + (1 + (countSucc rest : ℚ)) from by ring] at h1
        rw [h1, hcancel]
        ring
      · intro h0
        simp at h0

/-- The number of tokens `pySplitAux` emits: the tokens started in the remaining
input, plus the pending token in the accumulator. -/
theorem pySplitAux_length (l : List Char) :
    ∀ acc : List Char,
      (pySplitAux l acc).length
        = tokenCountAux l (!acc.isEmpty) + (if acc.isEmpty then 0 else 1) := by
  induction l with
  | nil =>
    intro acc
    cases acc <;> simp [pySplitAux, tokenCountAux]
  | cons c cs ih =>
    intro acc
    by_cases hw : c.isWhitespace
    · cases acc with
      | nil => simpa [pySplitAux, tokenCountAux, hw] using ih []
      | cons a as =>
        have h := ih []
        simp [pySplitAux, tokenCountAux, hw] at h ⊢
        omega
    · cases acc with
      | nil =>
        have h := ih [c]
        simp [pySplitAux, tokenCountAux, hw] at h ⊢
        omega
      | cons a as =>
        have h := ih (c :: a :: as)
        simp [pySplitAux, tokenCountAux, hw] at h ⊢
        omega

/-- Splitting on newlines always yields at least one chunk. -/
theorem splitNL_ne_nil (l : List Char) : splitNL l ≠ [] := by
  cases l with
  | nil => simp [splitNL]
  | cons c cs =>
    by_cases h : c = '\n'
    · simp [splitNL, h]
    · simp only [splitNL, if_neg h]
      cases splitNL cs <;> simp

/-- Joining the newline-chunks with the break tag is the same as expanding each
newline character to the break tag in place. -/
theorem joinSep_splitNL (l : List Char) :
    joinSep brTag (splitNL l) = nlToBrL l := by
  induction l with
  | nil => rfl
  | cons c cs ih =>
    by_cases h : c = '\n'
    · subst h
      simp only [splitNL, if_pos rfl, nlToBrL]
      cases hs : splitNL cs with
      | nil => exact absurd hs (splitNL_ne_nil cs)
      | cons a t =>
        rw [hs] at ih
        simp only [joinSep, List.nil_append]
        rw [ih]
        simp
    · simp only [splitNL, if_neg h, nlToBrL, if_neg h]
      cases hs : splitNL cs with
      | nil => exact absurd hs (splitNL_ne_nil cs)
      | cons a t =>
        rw [hs] at ih
        cases t with
        | nil =>
          simp only [joinSep] at ih ⊢
          rw [ih]
          simp
        | cons b t2 =>
          simp only [joinSep] at ih ⊢
          rw [← ih]
          simp

/-- Expanding newlines is the identity on newline-free character lists. -/
theorem nlToBrL_filter (l : List Char) :
    nlToBrL (l.filter (fun c => c != '\n')) = l.filter (fun c => c != '\n') := by
  induction l with
  | nil => rfl
  | cons c cs ih =>
    by_cases h : c = '\n'
    · simpa [List.filter_cons, h] using ih
    · simp [List.filter_cons, h, nlToBrL, ih]

/-- C1: for every sequence of runs on one orchestrator, the running average
duration is exactly the mean of the durations of the successful runs (stated as
`sum / count`; both sides are `0` when no run succeeded, `ℚ` division by zero
being zero), independently of interleaved failures; and recording a failed run
leaves `avg_duration` unchanged. -/
theorem c1_running_average_exact :
    (∀ rs : List RunInput,
        (runList initMetrics rs).avg_duration
          = sumSuccDur rs / ((countSucc rs : Nat) : ℚ)) ∧
    (∀ (m : WorkflowMetrics) (topic : String) (wc : Nat) (ts : Timestamp)
        (msg trace : String) (d : ℚ),
        (run_workflow m ⟨topic, wc, ts, .raised msg trace, d⟩).2.avg_duration
          = m.avg_duration) := by
  constructor
  · intro rs
    obtain ⟨h1, h2⟩ := runList_avg rs initMetrics (fun _ => rfl)
    simp only [initMetrics, Nat.zero_add, Nat.cast_zero, mul_zero, zero_add, zero_mul] at h1 h2
    by_cases hn : countSucc rs = 0
    · rw [hn]
      simp only [Nat.cast_zero, div_zero]
      exact h2 hn
    · have hne : ((countSucc rs : Nat) : ℚ) ≠ 0 := Nat.cast_ne_zero.mpr hn
      rw [eq_div_iff hne]
      simpa using h1
  · intro m t wc ts msg tr d
    rfl

/-- C3: starting from a fresh orchestrator, after every sequence of completed
runs the counters satisfy `total_runs = successful_runs + failed_runs` (they are
`Nat`, hence nonnegative by type), and a single `run_workflow` call never
decreases any of the three counters, so they are monotonically non-decreasing
over the orchestrator's lifetime. -/
theorem c3_counter_invariant_and_monotonicity :
    (∀ rs : List RunInput,
        (runList initMetrics rs).total_runs
          = (runList initMetrics rs).successful_runs + (runList initMetrics rs).failed_runs) ∧
    (∀ (m : WorkflowMetrics) (inp : RunInput),
        m.total_runs ≤ (run_workflow m inp).2.total_runs ∧
        m.successful_runs ≤ (run_workflow m inp).2.successful_runs ∧
        m.failed_runs ≤ (run_workflow m inp).2.failed_runs) := by
  constructor
  · intro rs
    obtain ⟨ht, hs, hf⟩ := runList_counters rs initMetrics
    have hsf := countSucc_add_countFail rs
    rw [show initMetrics.total_runs = 0 from rfl] at ht
    rw [show initMetrics.successful_runs = 0 from rfl] at hs
    rw [show initMetrics.failed_runs = 0 from rfl] at hf
    omega
  · intro m inp
    obtain ⟨t, wc, ts, oc, d⟩ := inp
    cases oc with
    | ok res => rw [run_workflow_state_ok]; exact ⟨Nat.le_succ _, Nat.le_succ _, Nat.le_refl _⟩
    | raised msg tr =>
      rw [run_workflow_state_raised]
      exact ⟨Nat.le_succ _, Nat.le_refl _, Nat.le_succ _⟩

/-- C4: for every reachable counter state, the metrics snapshot is a pure read
(the state component of the method viewed as a state transformer is unchanged),
its `success_rate` is `successful / total * 100` when runs exist and `0` when
`total_runs = 0`, and its estimated cost per run is the constant
`15000 / 1000 * 0.002 = 0.03`, independent of the recorded runs. -/
theorem c4_snapshot_pure_read :
    ∀ rs : List RunInput,
      (get_performance_metricsM (runList initMetrics rs)).2 = runList initMetrics rs ∧
      (get_performance_metricsM (runList initMetrics rs)).1.success_rate
        = (if 0 < rs.length then ((countSucc rs : Nat) : ℚ) / ((rs.length : Nat) : ℚ) * 100
           else 0) ∧
      (get_performance_metricsM (runList initMetrics rs)).1.estimated_cost_per_run
        = 3 / 100 := by
  intro rs
  obtain ⟨ht, hs, -⟩ := runList_counters rs initMetrics
  rw [show initMetrics.total_runs = 0 from rfl, Nat.zero_add] at ht
  rw [show initMetrics.successful_runs = 0 from rfl, Nat.zero_add] at hs
  refine ⟨rfl, ?_, ?_⟩
  · simp only [get_performance_metricsM, get_performance_metrics, ht, hs]
  · simp only [get_performance_metricsM, get_performance_metrics, estimate_cost]
    norm_num

/-- C5: whatever happens inside the run (modelled by the driver outcome,
including any raised exception), `run_workflow` is a total function returning a
structured record: on an exception the record has `success = false` and carries
the captured error message and traceback, and on success it has
`success = true`.  The exception is never propagated. -/
theorem c5_exceptions_become_structured_results :
    ∀ (m : WorkflowMetrics) (topic : String) (wc : Nat) (ts : Timestamp) (d : ℚ),
      (∀ res : String,
          (run_workflow m ⟨topic, wc, ts, .ok res, d⟩).1.success = true) ∧
      (∀ msg trace : String,
          (run_workflow m ⟨topic, wc, ts, .raised msg trace, d⟩).1.success = false ∧
          (run_workflow m ⟨topic, wc, ts, .raised msg trace, d⟩).1.error = some msg ∧
          (run_workflow m ⟨topic, wc, ts, .raised msg trace, d⟩).1.traceback = some trace) := by
  intro m t wc ts d
  exact ⟨fun _ => rfl, fun _ _ => ⟨rfl, rfl, rfl⟩⟩

/-- C6: in every record produced by `run_workflow`, the success group
(`final_output`, `output_files`) is populated exactly when `success` is true and
the failure group (`error`, `traceback`) exactly when it is false, so exactly
one of the two groups is populated, determined by the `success` flag. -/
theorem c6_exactly_one_group_populated :
    ∀ (m : WorkflowMetrics) (inp : RunInput),
      (run_workflow m inp).1.final_output.isSome = (run_workflow m inp).1.success ∧
      (run_workflow m inp).1.output_files.isSome = (run_workflow m inp).1.success ∧
      (run_workflow m inp).1.error.isSome = !(run_workflow m inp).1.success ∧
      (run_workflow m inp).1.traceback.isSome = !(run_workflow m inp).1.success := by
  intro m inp
  obtain ⟨t, wc, ts, oc, d⟩ := inp
  cases oc with
  | ok res => exact ⟨rfl, rfl, rfl, rfl⟩
  | raised msg tr => exact ⟨rfl, rfl, rfl, rfl⟩

/-- The topic of the record returned by `run_workflow` is the topic passed in. -/
theorem run_workflow_topic (m : WorkflowMetrics) (inp : RunInput) :
    (run_workflow m inp).1.topic = inp.topic := by
  obtain ⟨t, wc, ts, oc, d⟩ := inp
  cases oc <;> rfl

/-- The success flag of the record returned by `run_workflow` is exactly whether
the driver outcome was a success. -/
theorem run_workflow_success (m : WorkflowMetrics) (inp : RunInput) :
    (run_workflow m inp).1.success = inp.outcome.isOk := by
  obtain ⟨t, wc, ts, oc, d⟩ := inp
  cases oc <;> rfl

/-- C7: `batch_process` returns one record per topic, in caller-supplied order,
and each entry's topic and success flag reflect exactly that item's own driver
outcome — a failure on one topic never aborts the batch or affects the other
entries. -/
theorem c7_batch_partial_failure_isolation :
    ∀ (m : WorkflowMetrics) (items : List BatchItem) (wc : Nat),
      (batch_process m items wc).1.length = items.length ∧
      (batch_process m items wc).1.map (fun r => (r.topic, r.success))
        = items.map (fun it => (it.topic, it.outcome.isOk)) := by
  intro m items wc
  induction items generalizing m with
  | nil => exact ⟨rfl, rfl⟩
  | cons it rest ih =>
    obtain ⟨ihl, ihm⟩ := ih (run_workflow m ⟨it.topic, wc, it.start_time, it.outcome, it.duration⟩).2
    constructor
    · simpa [batch_process] using ihl
    · simpa [batch_process, run_workflow_topic, run_workflow_success] using ihm

/-- C2 counterexample: the claim's concrete values are wrong on the code.  The
slug of `"AI & Society!!"` is `"ai__society"` — the dropped `&` leaves two
adjacent spaces, and each space becomes its own underscore — so it is not
`"ai_society"`; the conjunction claimed is therefore false. -/
theorem c2_slug_examples_counterexample :
    ¬ (safe_topic "AI & Society!!" = "ai_society" ∧
       safe_topic "   " = "" ∧
       (save_output_files "Edge/Case?" "content" ⟨2024, 1, 2, 3, 4, 5⟩).markdown_path
         = "outputs/blog_posts/edge_case_20240102_030405.md") := by
  decide

/-- C2 amended: slug derivation on the spec's inputs as the code actually
computes it.  `slugify("AI & Society!!") = "ai__society"` (double underscore),
`slugify("   ") = ""`, and an artifact write for topic `"Edge/Case?"` at
timestamp 2024-01-02T03:04:05 produces files with stem
`edgecase_20240102_030405` (slash and `?` dropped, leaving no separator). -/
theorem c2_slug_examples_amended :
    safe_topic "AI & Society!!" = "ai__society" ∧
    safe_topic "   " = "" ∧
    (save_output_files "Edge/Case?" "content" ⟨2024, 1, 2, 3, 4, 5⟩).markdown_path
      = "outputs/blog_posts/edgecase_20240102_030405.md" ∧
    (save_output_files "Edge/Case?" "content" ⟨2024, 1, 2, 3, 4, 5⟩).html_path
      = "outputs/blog_posts/edgecase_20240102_030405.html" ∧
    (save_output_files "Edge/Case?" "content" ⟨2024, 1, 2, 3, 4, 5⟩).text_path
      = "outputs/blog_posts/edgecase_20240102_030405.txt" ∧
    (save_output_files "Edge/Case?" "content" ⟨2024, 1, 2, 3, 4, 5⟩).metadata_path
      = "outputs/blog_posts/edgecase_20240102_030405_metadata.json" ∧
    get_output_files "Edge/Case?" ⟨2024, 1, 2, 3, 4, 5⟩
      = [ "outputs/blog_posts/edgecase_20240102_030405.md",
          "outputs/blog_posts/edgecase_20240102_030405.html",
          "outputs/blog_posts/edgecase_20240102_030405.txt",
          "outputs/blog_posts/edgecase_20240102_030405_metadata.json" ] := by
  decide

/-- C8: for every topic and content, the metadata record written by
`save_output_files` has `word_count` equal to the whitespace-delimited token
count of the exact content passed in, and `character_count` equal to the length
of that content. -/
theorem c8_metadata_counts :
    ∀ (topic content : String) (ts : Timestamp),
      (save_output_files topic content ts).metadata.word_count
        = whitespaceTokenCount content ∧
      (save_output_files topic content ts).metadata.character_count
        = content.length := by
  intro t c ts
  refine ⟨?_, rfl⟩
  show (pySplit c).length = whitespaceTokenCount c
  have h := pySplitAux_length c.data []
  simpa [pySplit, whitespaceTokenCount] using h

/-- C9: the HTML artifact is the fixed template with the content embedded after
replacing every newline by the break tag and nothing else; the markdown and
text artifacts are the content verbatim.  The second conjunct makes the
pass-through explicit: on any newline-free character sequence (including
HTML-significant characters) the embedding substitution is the identity. -/
theorem c9_html_wraps_content_verbatim :
    (∀ (topic content : String) (ts : Timestamp),
        (save_output_files topic content ts).html_content
          = htmlHead1 ++ topic ++ htmlHead2 ++ specNewlineToBr content ++ htmlTail ∧
        (save_output_files topic content ts).markdown_content = content ∧
        (save_output_files topic content ts).text_content = content) ∧
    (∀ s : String,
        specNewlineToBr (String.mk (s.data.filter (fun c => c != '\n')))
          = String.mk (s.data.filter (fun c => c != '\n'))) := by
  constructor
  · intro t c ts
    refine ⟨?_, rfl, rfl⟩
    show htmlDocument t c = _
    unfold htmlDocument pyReplaceNewlineBr specNewlineToBr
    rw [joinSep_splitNL]
  · intro s
    unfold specNewlineToBr
    simp only [nlToBrL_filter]

/-- C10: for every successful run, the `output_files` field of the returned
record is exactly the four paths under `outputs/blog_posts/` in the fixed order
`.md`, `.html`, `.txt`, `_metadata.json`, computed only from the topic and the
run's start time — independent of the metrics state, word count, driver result
and duration (and of the filesystem, which the embedding of
`_get_output_files` never consults). -/
theorem c10_output_files_listing_pure :
    ∀ (m : WorkflowMetrics) (topic : String) (wc : Nat) (ts : Timestamp)
      (res : String) (d : ℚ),
      (run_workflow m ⟨topic, wc, ts, .ok res, d⟩).1.output_files
        = some
          [ "outputs/blog_posts/" ++ safe_topic topic ++ "_" ++ strftime_compact ts ++ ".md",
            "outputs/blog_posts/" ++ safe_topic topic ++ "_" ++ strftime_compact ts ++ ".html",
            "outputs/blog_posts/" ++ safe_topic topic ++ "_" ++ strftime_compact ts ++ ".txt",
            "outputs/blog_posts/" ++ safe_topic topic ++ "_" ++ strftime_compact ts
              ++ "_metadata.json" ] := by
  intro m t wc ts res d
  rfl
